import Mathlib

/-!
Verification of the cloud-custodian governance-engine specification against
a shallow embedding of the repository's code (`c7n/commands.py` and the
behavior pinned by `tests/test_s3.py`).  Components whose implementation is
not part of the visible sources (the scan checkpoint log, the schema
validator, the s3 filters/actions, the restore-status parser) are modelled
from the specification, and are marked as such in their doc comments.
-/

namespace Custodian

/-! ## Scan checkpoint log (spec section 4.4, `s3.BucketScanLog`) -/

/-- Modelled from the spec: `BucketScanLog` session state machine
`unopened -> open -> closed`.  While open it holds the staged ordered
sequence of batches; once closed it holds the persisted record. -/
inductive ScanLogState where
  | unopened
  | opened (batches : List (List Nat))
  | closed (persisted : List (List Nat))
deriving DecidableEq

/-- Modelled from the spec: `open()` creates or truncates the backing record
for a session name; a session must not be reopened once closed. -/
def scanOpen : ScanLogState → Option ScanLogState
  | .unopened => some (.opened [])
  | .opened _ => some (.opened [])
  | .closed _ => none

/-- Modelled from the spec: while open, repeated `add(batch)` calls append one
batch to the staged record; `add` on an unopened or closed session fails. -/
def scanAdd (b : List Nat) : ScanLogState → Option ScanLogState
  | .opened bs => some (.opened (bs ++ [b]))
  | _ => none

/-- Modelled from the spec: `close()` appends a final empty batch and persists
the full ordered sequence of batches durably in one write. -/
def scanClose : ScanLogState → Option ScanLogState
  | .opened bs => some (.closed (bs ++ [[]]))
  | _ => none

/-- Modelled from the spec: reading the persisted record back yields the
sequence of batches that was durably written at close. -/
def scanReadBack : ScanLogState → Option (List (List Nat))
  | .closed p => some p
  | _ => none

/-! ## Restore-status parsing (`s3.restore_complete`) -/

/-- Whether the first list occurs at the head of the second, character by
character. -/
def charsStartWith : List Char → List Char → Bool
  | [], _ => true
  | _ :: _, [] => false
  | a :: as, b :: bs => a == b && charsStartWith as bs

/-- Whether `needle` occurs as a contiguous run anywhere in the second list. -/
def charsContain (needle : List Char) : List Char → Bool
  | [] => charsStartWith needle []
  | c :: cs => charsStartWith needle (c :: cs) || charsContain needle cs

/-- Modelled from the spec: `s3.restore_complete` inspects a storage-object
restore status string and reports completion exactly when the status carries
the field `ongoing-request="false"` (the test pins this on the two status
strings it asserts about). -/
def restore_complete (status : String) : Bool :=
  charsContain ("ongoing-request=\"false\"").data status.data

/-! ## The `run` command body (`commands.py` lines 66-75)

A policy invocation `policy()` is modelled as a name paired with an optional
exception: `none` means the call returns normally, `some e` means it raises
the exception `e`. -/

/-- A policy as the `run` loop sees it: its name and what `policy()` does. -/
abbrev PolicyRun := String × Option String

/-- One observable event of the `run` loop. -/
inductive Ev where
  | ran (name : String)
  | warned (name : String)
deriving DecidableEq

/-- The body of `run` in `commands.py`: iterate the selected policies in
order, call each; on an exception re-raise when `options.debug` is set,
otherwise log a warning naming the policy and continue with the next. -/
def run_body (debug : Bool) : List PolicyRun → Except String (List Ev)
  | [] => .ok []
  | (n, exc) :: rest =>
    match exc with
    | none => (run_body debug rest).map (fun t => Ev.ran n :: t)
    | some e =>
      if debug then .error e
      else (run_body debug rest).map (fun t => Ev.warned n :: t)

/-! ## Schema validation (spec section 4.5, `schema.validate`) and the
`validate` command (`commands.py` lines 43-62) -/

/-- A parsed policy document: required keys `name` and `resource`, optional
`filters` and `actions` given by their `type` discriminators. -/
structure PolicyDoc where
  name : Option String
  resource : Option String
  filters : List String
  actions : List String
deriving DecidableEq

/-- The in-memory registry: the registered resource-type keys, and the
filter/action discriminators registered for each resource type. -/
structure Registry where
  resourceTypes : List String
  filterTypes : String → List String
  actionTypes : String → List String

/-- Modelled from the spec: `schema.validate(document)` returns the sequence
of every error description found — top-level required keys, resource-type
existence, and filter/action discriminator existence scoped to the named
resource type — and is pure structural analysis over the parsed document and
the registry. -/
def schema_validate (reg : Registry) (doc : PolicyDoc) : List String :=
  let nameErrs : List String :=
    if doc.name.isNone then ["required key missing: name"] else []
  match doc.resource with
  | none => nameErrs ++ ["required key missing: resource"]
  | some r =>
    if r ∈ reg.resourceTypes then
      nameErrs
        ++ (doc.filters.filter (fun f => f ∉ reg.filterTypes r)).map
             (fun f => "unknown filter type: " ++ f)
        ++ (doc.actions.filter (fun a => a ∉ reg.actionTypes r)).map
             (fun a => "unknown action type: " ++ a)
    else nameErrs ++ ["unknown resource type: " ++ r]

/-- The spec's notion of document validity, stated directly from its words:
the document names a registered resource type, carries a name, and every
filter/action discriminator is registered for that resource type. -/
def docWellFormed (reg : Registry) (doc : PolicyDoc) : Bool :=
  doc.name.isSome &&
    (match doc.resource with
     | none => false
     | some r =>
       decide (r ∈ reg.resourceTypes)
         && doc.filters.all (fun f => decide (f ∈ reg.filterTypes r))
         && doc.actions.all (fun a => decide (a ∈ reg.actionTypes r)))

/-- An observable side effect of a command; `providerCall` would be any call
against the cloud provider (enumeration included). -/
inductive Effect where
  | providerCall (api : String)
  | logInfo (msg : String)
  | logError (msg : String)
  | exitCode (c : Nat)
deriving DecidableEq

/-- How the `validate` command terminates. -/
inductive ValidateOutcome where
  | valueError (msg : String)
  | unboundLocal
  | ok
  | exited (code : Nat)
deriving DecidableEq

/-- The segment of a character list after its last `'.'` (the whole list when
no dot occurs): `config.rsplit('.', 1)[-1]`. -/
def lastSegment (cur : List Char) : List Char → List Char
  | [] => cur
  | c :: cs => if c == '.' then lastSegment [] cs else lastSegment (cur ++ [c]) cs

/-- The filename extension as `validate` computes it:
`options.config.rsplit('.', 1)[-1]`. -/
def extOf (config : String) : String :=
  String.mk (lastSegment [] config.data)

/-- The inputs `validate(options)` reads: the config path, whether it exists,
and the document the yaml/json loader would produce from the file body. -/
structure ValidateOptions where
  config : String
  configExists : Bool
  parsed : PolicyDoc

/-- The two `if format in (...)` branches of `validate`: `data` is assigned
only when the extension is yml/yaml (yaml loader) or json (json loader);
any other extension leaves `data` unassigned. -/
def loadData (ext : String) (parsed : PolicyDoc) : Option PolicyDoc :=
  if ext == "yml" || ext == "yaml" then some parsed
  else if ext == "json" then some parsed
  else none

/-- The `validate` command from `commands.py`: reject a missing path with a
`ValueError`; load the document per the extension (reaching
`schema.validate(data)` with `data` unassigned raises an unbound-local
error); on errors log "Invalid configuration", log every error, and
`sys.exit(1)`; on success log "Config valid" and return. -/
def commands_validate (reg : Registry) (opts : ValidateOptions) :
    List Effect × ValidateOutcome :=
  if opts.configExists = false then
    ([], .valueError ("Invalid path for config " ++ opts.config))
  else
    match loadData (extOf opts.config) opts.parsed with
    | none => ([], .unboundLocal)
    | some data =>
      let errors := schema_validate reg data
      if errors.isEmpty then
        ([.logInfo "Config valid"], .ok)
      else
        ((.logError "Invalid configuration" :: errors.map Effect.logError)
            ++ [.exitCode 1],
         .exited 1)

/-! ## The `report` command body (`commands.py` lines 79-88) -/

/-- How the `report` body terminates: the failed `assert len(policies) == 1`,
or the `do_report` call with the single policy and the begin date.  Dates are
modelled in whole days, so `datetime.now() - timedelta(days=days)` is
`now - days`. -/
inductive ReportResult where
  | assertionError (msg : String)
  | reported (policyName : String) (beginDate : Int)
deriving DecidableEq

/-- The body of `report`: assert exactly one selected policy, pop it, and hand
`do_report` that policy together with `begin_date = now - days`. -/
def report_body (now days : Int) : List String → ReportResult
  | [p] => .reported p (now - days)
  | _ => .assertionError "Only one policy report at a time"

/-! ## The `policy_command` decorator (`commands.py` lines 33-40)

A Python `def` with no `return` statement returns `None`.  The module-level
binding produced by decorating a command is therefore either a callable or
`None`. -/

/-- A module-level command binding: what `@policy_command` leaves bound to
the command's name. -/
inductive PyBinding (α : Type) where
  | callable (f : α)
  | pynone
deriving DecidableEq

/-- The `policy_command` decorator: it defines the wrapper `_load_policies`
(which would build the config, load the policy collection and call the
wrapped function) but has no `return` statement, so the decorator call
evaluates to `None` for every wrapped function. -/
def policy_command {α β : Type} (f : α → β) : PyBinding (α → β) :=
  let _load_policies : α → β := fun options => f options
  PyBinding.pynone

/-- Calling a module-level binding: calling `None` raises a `TypeError`. -/
def invokeBinding {α β : Type} (b : PyBinding (α → β)) (args : α) :
    Except String β :=
  match b with
  | .callable f => .ok (f args)
  | .pynone => .error "TypeError: NoneType object is not callable"

/-- The body of `logs`: assert exactly one selected policy and stream that
policy's lambda logs. -/
def logs_body : List String → Except String String
  | [p] => .ok p
  | _ => .error "Only one policy log at a time"

/-- The body of `resources`: list deployed functions, printing them all only
when `options.all` is set. -/
def resources_body (showAll : Bool) (funcs : List String) : List String :=
  if showAll then funcs else []

/-- The module-level `run` binding: `policy_command` applied to the run body. -/
def run_command : PyBinding ((Bool × List PolicyRun) → Except String (List Ev)) :=
  policy_command (fun args => run_body args.1 args.2)

/-- The module-level `report` binding. -/
def report_command : PyBinding ((Int × Int × List String) → ReportResult) :=
  policy_command (fun args => report_body args.1 args.2.1 args.2.2)

/-- The module-level `logs` binding. -/
def logs_command : PyBinding (List String → Except String String) :=
  policy_command logs_body

/-- The module-level `resources` binding. -/
def resources_command : PyBinding ((Bool × List String) → List String) :=
  policy_command (fun args => resources_body args.1 args.2)

/-! ## Storage-bucket grants scenario (spec section 8, `test_s3.py`
`test_global_grants_filter_and_remove`) -/

/-- One ACL grant: the grantee URI and the permission. -/
structure Grant where
  granteeURI : String
  permission : String
deriving DecidableEq

/-- A storage bucket with its access-control grants. -/
structure Bucket where
  name : String
  grants : List Grant
deriving DecidableEq

/-- The URI of the public (all-users) principal. -/
def publicURI : String := "http://acs.amazonaws.com/groups/global/AllUsers"

/-- Modelled from the spec: the public-grant (`global-grants`) domain filter
matches a bucket exactly when some grant names the public principal. -/
def globalGrantsFilter (b : Bucket) : Bool :=
  b.grants.any (fun g => g.granteeURI == publicURI)

/-- Modelled from the spec: the revoke-public-grant (`delete-global-grants`)
action strips every grant whose grantee is among the listed grantees. -/
def deleteGlobalGrants (grantees : List String) (b : Bucket) : Bucket :=
  { b with grants := b.grants.filter (fun g => !(grantees.contains g.granteeURI)) }

/-- A bucket's grants to the public principal. -/
def publicGrants (b : Bucket) : List Grant :=
  b.grants.filter (fun g => g.granteeURI == publicURI)

/-- Modelled from the spec: one execution pass of the grants policy —
enumerate, select with the public-grant filter, apply the revoke action to
the matched resources — returning the matched resources and the post-run
bucket states. -/
def runGrantsPolicy (buckets : List Bucket) : List Bucket × List Bucket :=
  let matched := buckets.filter globalGrantsFilter
  let after := buckets.map (fun b =>
    if globalGrantsFilter b then deleteGlobalGrants [publicURI] b else b)
  (matched, after)

/-! ## Encryption action idempotence (spec section 4.3,
`test_s3.py` `test_encrypt_keys`) -/

/-- A bucket object with its server-side-encryption attribute (absent when
the object is stored unencrypted). -/
structure S3Object where
  key : String
  sse : Option String
deriving DecidableEq

/-- Modelled from the spec: the encrypt-keys action on one object — an
already-encrypted object is left untouched (a no-op, not an error), an
unencrypted one is re-stored with server-side encryption. -/
def encryptObject (o : S3Object) : Except String S3Object :=
  match o.sse with
  | some _ => .ok o
  | none => .ok { o with sse := some "AES256" }

/-- Modelled from the spec: the encrypt-keys action over a population of
objects, applied per object with all outcomes collected. -/
def encryptKeys : List S3Object → Except String (List S3Object)
  | [] => .ok []
  | o :: os => do
    let o2 ← encryptObject o
    let os2 ← encryptKeys os
    pure (o2 :: os2)

/-- The pure per-object effect of the encrypt-keys action. -/
def sseApply (o : S3Object) : S3Object :=
  match o.sse with
  | some _ => o
  | none => { o with sse := some "AES256" }

/-! ## Concrete fixtures used by the witness theorems -/

/-- A small concrete registry with one resource type. -/
def wRegistry : Registry :=
  ⟨["s3"], fun _ => ["global-grants"], fun _ => ["delete-global-grants"]⟩

/-- A document naming a resource type absent from `wRegistry`. -/
def wBadDoc : PolicyDoc := ⟨some "p", some "ec2", [], []⟩

/-- Options pointing at an existing yml config whose body parses to
`wBadDoc`. -/
def wOpts : ValidateOptions := ⟨"policy.yml", true, wBadDoc⟩

/-! ## Helper lemmas -/

/-- Per object, the encrypt action never fails and computes `sseApply`. -/
theorem encryptObject_eq (o : S3Object) : encryptObject o = .ok (sseApply o) := by
  cases o with
  | mk k s => cases s <;> rfl

/-- The encrypt action over a population never fails: it maps `sseApply`. -/
theorem encryptKeys_eq (objs : List S3Object) :
    encryptKeys objs = .ok (objs.map sseApply) := by
  induction objs with
  | nil => rfl
  | cons o os ih =>
    simp only [encryptKeys, encryptObject_eq, ih, List.map_cons]
    rfl

/-- Re-encrypting one object is a no-op. -/
theorem sseApply_idem (o : S3Object) : sseApply (sseApply o) = sseApply o := by
  cases o with
  | mk k s => cases s <;> rfl

/-- The `validate` command never issues a provider call on any input. -/
theorem commands_validate_no_provider (reg : Registry) (opts : ValidateOptions)
    (api : String) : Effect.providerCall api ∉ (commands_validate reg opts).1 := by
  unfold commands_validate
  split
  · simp
  · split
    · simp
    · next data _ =>
        cases hsv : (schema_validate reg data).isEmpty <;> simp [hsv]

/-! ## Claim theorems -/

/-- C1: opening a scan checkpoint session, adding batches `B1` then `B2`, and
closing persists a record that reads back as exactly `[B1, B2, []]` — every
added batch in order plus one trailing empty batch. -/
theorem scan_checkpoint_roundtrip (B1 B2 : List Nat) :
    ((((scanOpen ScanLogState.unopened).bind (scanAdd B1)).bind
        (scanAdd B2)).bind scanClose).bind scanReadBack = some [B1, B2, []] :=
  rfl

/-- C10: `restore_complete` returns true on a status reporting
`ongoing-request="false"` (with an expiry date) and false on a status
reporting `ongoing-request="true"`. -/
theorem restore_complete_on_statuses :
    restore_complete
        "ongoing-request=\"false\", expiry-date=\"Fri, 23 Dec 2012 00:00:00 GMT\"" = true ∧
    restore_complete "ongoing-request=\"true\"" = false := by
  exact ⟨rfl, rfl⟩

/-- C2: the `run` body executes each selected policy in order; without debug
an exception is logged as a warning and the loop continues with the next
policy, while with debug the first exception is re-raised to the caller. -/
theorem run_continues_or_reraises (ps : List PolicyRun) :
    run_body false ps = .ok (ps.map (fun p =>
        match p.2 with
        | none => Ev.ran p.1
        | some _ => Ev.warned p.1)) ∧
    (∀ (pre : List PolicyRun) (n e : String) (post : List PolicyRun),
      ps = pre ++ (n, some e) :: post →
      (∀ q ∈ pre, q.2 = none) →
      run_body true ps = .error e) := by
  constructor
  · induction ps with
    | nil => rfl
    | cons p rest ih =>
      obtain ⟨n, exc⟩ := p
      cases exc <;> simp [run_body, ih, Except.map]
  · intro pre n e post hps hpre
    subst hps
    induction pre with
    | nil => rfl
    | cons q qs ih =>
      have hq : q.2 = none := hpre q (by simp)
      obtain ⟨qn, qexc⟩ := q
      simp only at hq
      subst hq
      simp only [List.cons_append, run_body, List.append_eq]
      rw [ih (fun x hx => hpre x (by simp [hx]))]
      rfl

/-- Witness for C2: a clean policy, then one that raises, then another; with
debug set the raised exception propagates. -/
theorem run_continues_or_reraises_witness :
    run_body true [("a", none), ("b", some "boom"), ("c", none)] =
      Except.error "boom" :=
  (run_continues_or_reraises [("a", none), ("b", some "boom"), ("c", none)]).2
    [("a", none)] "b" "boom" [("c", none)] rfl (by decide)

/-- C7: the `report` body rejects any selection other than exactly one policy
with its assertion, and hands the report collaborator the single policy with
begin date equal to now minus the configured number of days. -/
theorem report_single_policy (now days : Int) (ps : List String) :
    (ps.length ≠ 1 →
      report_body now days ps =
        .assertionError "Only one policy report at a time") ∧
    (∀ p, ps = [p] → report_body now days ps = .reported p (now - days)) := by
  constructor
  · intro h
    match ps with
    | [] => rfl
    | [p] => exact absurd rfl h
    | p :: q :: rest => rfl
  · intro p hp
    subst hp
    rfl

/-- Witness for C7: two selected policies trip the assertion; a single one is
reported with begin date `100 - 7`. -/
theorem report_single_policy_witness :
    report_body 100 7 ["p1", "p2"] =
      ReportResult.assertionError "Only one policy report at a time" ∧
    report_body 100 7 ["p1"] = ReportResult.reported "p1" (100 - 7) :=
  ⟨(report_single_policy 100 7 ["p1", "p2"]).1 (by decide),
   (report_single_policy 100 7 ["p1"]).2 "p1" rfl⟩

/-- C8: `policy_command` defines its wrapper but never returns it, so it
evaluates to None for every function it decorates; the decorated `run`,
`report`, `logs` and `resources` bindings are None and invoking any of them
fails instead of loading policies. -/
theorem policy_command_returns_none :
    (∀ (α β : Type) (f : α → β), policy_command f = PyBinding.pynone) ∧
    run_command = PyBinding.pynone ∧
    report_command = PyBinding.pynone ∧
    logs_command = PyBinding.pynone ∧
    resources_command = PyBinding.pynone ∧
    (∀ args, invokeBinding run_command args =
      Except.error "TypeError: NoneType object is not callable") ∧
    (∀ args, invokeBinding report_command args =
      Except.error "TypeError: NoneType object is not callable") ∧
    (∀ args, invokeBinding logs_command args =
      Except.error "TypeError: NoneType object is not callable") ∧
    (∀ args, invokeBinding resources_command args =
      Except.error "TypeError: NoneType object is not callable") :=
  ⟨fun _ _ _ => rfl, rfl, rfl, rfl, rfl,
   fun _ => rfl, fun _ => rfl, fun _ => rfl, fun _ => rfl⟩

/-- C3: schema validation returns an error list that is empty exactly when
the document is valid; on a non-empty list the `validate` command logs every
violation found and exits with failure status 1, and no provider call is
made before or during validation. -/
theorem validate_reports_every_error
    (reg : Registry) (opts : ValidateOptions) (data : PolicyDoc)
    (hex : opts.configExists = true)
    (hload : loadData (extOf opts.config) opts.parsed = some data) :
    (schema_validate reg data = [] ↔ docWellFormed reg data = true) ∧
    (schema_validate reg data ≠ [] →
      (commands_validate reg opts).2 = .exited 1 ∧
      ∀ e ∈ schema_validate reg data,
        Effect.logError e ∈ (commands_validate reg opts).1) ∧
    (∀ api, Effect.providerCall api ∉ (commands_validate reg opts).1) := by
  have hcv : commands_validate reg opts =
      (if (schema_validate reg data).isEmpty then
        ([Effect.logInfo "Config valid"], .ok)
      else
        ((Effect.logError "Invalid configuration"
            :: (schema_validate reg data).map Effect.logError)
            ++ [Effect.exitCode 1],
         .exited 1)) := by
    unfold commands_validate
    rw [hex, hload]
    rfl
  refine ⟨?_, ?_, fun api => commands_validate_no_provider reg opts api⟩
  · unfold schema_validate docWellFormed
    cases hres : data.resource with
    | none => cases hname : data.name <;> simp
    | some r =>
      by_cases hr : r ∈ reg.resourceTypes
      · cases hname : data.name <;>
          simp [hr, List.filter_eq_nil_iff, List.all_eq_true]
      · cases hname : data.name <;> simp [hr]
  · intro hne
    have hempty : (schema_validate reg data).isEmpty = false := by
      cases hsv : schema_validate reg data with
      | nil => exact absurd hsv hne
      | cons a l => rfl
    rw [hcv, hempty]
    refine ⟨rfl, fun e he => ?_⟩
    simp [he]

/-- Witness for C3: the unknown-resource document makes `validate` exit 1
with the violation logged. -/
theorem validate_reports_every_error_witness :
    (commands_validate wRegistry wOpts).2 = ValidateOutcome.exited 1 ∧
    Effect.logError "unknown resource type: ec2"
      ∈ (commands_validate wRegistry wOpts).1 :=
  have h := validate_reports_every_error wRegistry wOpts wBadDoc rfl rfl
  ⟨(h.2.1 (by decide)).1, (h.2.1 (by decide)).2 _ (by decide)⟩

/-- C6: a document whose resource key names a type absent from the registry
validates to a non-empty error list, and the `validate` command never issues
any provider call (no enumeration is attempted). -/
theorem validate_unknown_resource
    (reg : Registry) (doc : PolicyDoc) (r : String)
    (hres : doc.resource = some r) (hreg : r ∉ reg.resourceTypes) :
    schema_validate reg doc ≠ [] ∧
    ∀ (opts : ValidateOptions) (api : String),
      Effect.providerCall api ∉ (commands_validate reg opts).1 := by
  constructor
  · unfold schema_validate
    rw [hres]
    simp [hreg]
  · intro opts api
    exact commands_validate_no_provider reg opts api

/-- Witness for C6: `wBadDoc` names the unregistered type "ec2". -/
theorem validate_unknown_resource_witness :
    schema_validate wRegistry wBadDoc ≠ [] ∧
    Effect.providerCall "s3:ListBuckets"
      ∉ (commands_validate wRegistry wOpts).1 :=
  have h := validate_unknown_resource wRegistry wBadDoc "ec2" rfl (by decide)
  ⟨h.1, h.2 wOpts "s3:ListBuckets"⟩

/-- C9: on an existing config path whose extension is neither yml, yaml nor
json, `validate` leaves `data` unassigned and fails with an
unbound-local-name error at `schema.validate(data)` instead of producing a
validation error list. -/
theorem validate_unbound_local (reg : Registry) (opts : ValidateOptions)
    (hex : opts.configExists = true)
    (h1 : extOf opts.config ≠ "yml") (h2 : extOf opts.config ≠ "yaml")
    (h3 : extOf opts.config ≠ "json") :
    commands_validate reg opts = ([], .unboundLocal) := by
  unfold commands_validate
  rw [hex]
  have hload : loadData (extOf opts.config) opts.parsed = none := by
    unfold loadData
    simp [h1, h2, h3]
  rw [hload]
  rfl

/-- Witness for C9: a ".txt" config path reaches the unbound-local failure. -/
theorem validate_unbound_local_witness :
    commands_validate wRegistry ⟨"policy.txt", true, wBadDoc⟩ =
      ([], ValidateOutcome.unboundLocal) :=
  validate_unbound_local wRegistry ⟨"policy.txt", true, wBadDoc⟩ rfl
    (by decide) (by decide) (by decide)

/-- C4: the grants policy run against a bucket holding exactly one
public-write grant matches exactly that bucket, and the post-run bucket
state holds zero public grants. -/
theorem grants_policy_end_to_end (name : String) :
    (runGrantsPolicy [⟨name, [⟨publicURI, "WRITE"⟩]⟩]).1 =
      [⟨name, [⟨publicURI, "WRITE"⟩]⟩] ∧
    (runGrantsPolicy [⟨name, [⟨publicURI, "WRITE"⟩]⟩]).2 = [⟨name, []⟩] ∧
    (runGrantsPolicy [⟨name, [⟨publicURI, "WRITE"⟩]⟩]).2.map publicGrants =
      [[]] :=
  ⟨rfl, rfl, rfl⟩

/-- C5: the encryption action succeeds as a no-op on an already-encrypted
object, and running the action over any population succeeds and is
idempotent — re-running it on the resulting (already-encrypted) population
leaves the state unchanged. -/
theorem encrypt_action_idempotent :
    (∀ (k v : String), encryptObject ⟨k, some v⟩ = .ok ⟨k, some v⟩) ∧
    ∀ objs : List S3Object, ∃ objs2,
      encryptKeys objs = .ok objs2 ∧ encryptKeys objs2 = .ok objs2 := by
  constructor
  · intro k v
    rfl
  · intro objs
    refine ⟨objs.map sseApply, encryptKeys_eq objs, ?_⟩
    rw [encryptKeys_eq, List.map_map]
    simp [Function.comp, sseApply_idem]

end Custodian





